import Mathlib

/-
  Verification development for the contamination_simulation repository.

  Shallow embedding of the two C extension modules:
    - src/src/modules/cs_module.c   (calculate_dispersion_coefficients,
      calculate_emission_rate, calculate_plume_rise, update_pollution,
      update_pollution_multiple)
    - src/src/modules/spam_module.c (update_pollution)

  Conventions of the embedding:
    - C doubles are modelled as real numbers; decimal literals are exact.
    - The NumPy grid is modelled as a total function on integer indices
      (Grid); the windowed double loop that adds an increment to each
      visited cell is modelled as a pointwise update on the window.
    - The Python-level success/failure of a call (returning None versus
      setting an exception and returning NULL) is modelled by a Bool
      paired with the grid state at the moment the call returns; the
      argument-parsing and array-type checks that the static types of the
      embedding make unrepresentable are elided.
    - A vehicle entry of the batch call is an Option Vehicle: some v is a
      well-formed (x, y, speed) tuple, none is a malformed entry (wrong
      arity or not a tuple), which the C code detects inside the vehicle
      loop and turns into a ValueError.
    - The C cast (int) of a double is truncation toward zero, modelled by
      cTrunc (floor for nonnegative arguments, ceiling for negative ones).
-/

namespace ContamSim

/-- The pollution grid: cell values addressed by (row, column). -/
abbrev Grid := ℤ → ℤ → ℝ

/-- Physical bounds and resolution of the grid, the last five scalar
arguments of both update entry points. -/
structure Geometry where
  x_min : ℝ
  x_max : ℝ
  y_min : ℝ
  y_max : ℝ
  grid_resolution : ℤ

/-- The computation window (i_min, i_max, j_min, j_max) of the single
source entry points; loops run over i in [i_min, i_max), j in [j_min, j_max). -/
structure Window where
  i_min : ℤ
  i_max : ℤ
  j_min : ℤ
  j_max : ℤ

/-- Cell (i, j) is visited by the double loop over the window. -/
def inWindow (w : Window) (i j : ℤ) : Prop :=
  w.i_min ≤ i ∧ i < w.i_max ∧ w.j_min ≤ j ∧ j < w.j_max

instance (w : Window) (i j : ℤ) : Decidable (inWindow w i j) := by
  unfold inWindow; infer_instance

/-- cell_width = (x_max - x_min) / grid_resolution. -/
noncomputable def cellWidth (g : Geometry) : ℝ :=
  (g.x_max - g.x_min) / (g.grid_resolution : ℝ)

/-- cell_height = (y_max - y_min) / grid_resolution. -/
noncomputable def cellHeight (g : Geometry) : ℝ :=
  (g.y_max - g.y_min) / (g.grid_resolution : ℝ)

/-- receptor_x = x_min + (j + 0.5) * cell_width. -/
noncomputable def receptorX (g : Geometry) (j : ℤ) : ℝ :=
  g.x_min + ((j : ℝ) + 0.5) * cellWidth g

/-- receptor_y = y_min + (i + 0.5) * cell_height. -/
noncomputable def receptorY (g : Geometry) (i : ℤ) : ℝ :=
  g.y_min + ((i : ℝ) + 0.5) * cellHeight g

/-- The (a, b) pair selected by the strcmp cascade of
calculate_dispersion_coefficients in cs_module.c (lines 26-41). -/
def stabilityAB (stability_class : String) : ℚ × ℚ :=
  if stability_class = "A" then (0.22, 0.20)
  else if stability_class = "B" then (0.16, 0.12)
  else if stability_class = "C" then (0.11, 0.08)
  else if stability_class = "D" then (0.08, 0.06)
  else if stability_class = "E" then (0.06, 0.03)
  else if stability_class = "F" then (0.04, 0.016)
  else (0.10, 0.05)

/-- pow(1 + 0.0001 * distance, -0.5), the shared distance factor of both
sigma formulas. -/
noncomputable def distanceFactor (distance : ℝ) : ℝ :=
  (1 + 0.0001 * distance) ^ (-(0.5 : ℝ))

/-- calculate_dispersion_coefficients of cs_module.c: the (sigma_y, sigma_z)
pair for a stability class and a distance. -/
noncomputable def calculate_dispersion_coefficients
    (stability_class : String) (distance : ℝ) : ℝ × ℝ :=
  (((stabilityAB stability_class).1 : ℝ) * distance * distanceFactor distance,
   ((stabilityAB stability_class).2 : ℝ) * distance * distanceFactor distance)

/-- calculate_emission_rate of cs_module.c (lines 55-64). -/
noncomputable def calculate_emission_rate
    (vehicle_speed emission_factor : ℝ) : ℝ :=
  0.1 * (if vehicle_speed > 20 then 1 + 0.05 * (vehicle_speed - 20) else 1) *
    emission_factor

/-- calculate_plume_rise of cs_module.c (lines 72-76). -/
noncomputable def calculate_plume_rise (vehicle_speed : ℝ) : ℝ :=
  if vehicle_speed * 0.15 + 0.5 > 2 then vehicle_speed * 0.15 + 0.5 else 2

/-- C's atan2(y, x), written out by quadrant from Real.arctan. -/
noncomputable def atan2 (y x : ℝ) : ℝ :=
  if 0 < x then Real.arctan (y / x)
  else if x < 0 then
    (if 0 ≤ y then Real.arctan (y / x) + Real.pi
     else Real.arctan (y / x) - Real.pi)
  else
    (if 0 < y then Real.pi / 2
     else if y < 0 then -(Real.pi / 2)
     else 0)

/-- angle_diff as computed in both modules: |atan2(dy, dx) - wind_direction|,
replaced by 2*pi minus it when it exceeds pi. -/
noncomputable def angleDiff (dy dx wind_direction : ℝ) : ℝ :=
  let a := |atan2 dy dx - wind_direction|
  if a > Real.pi then 2 * Real.pi - a else a

/-- sigma_y as inlined in the loop body of cs_module.c update_pollution
(lines 162-163): fixed coefficient 0.1. -/
noncomputable def csSigmaY (distance : ℝ) : ℝ :=
  0.1 * distance * distanceFactor distance

/-- sigma_z as inlined in the loop body of cs_module.c update_pollution
(line 164): fixed coefficient 0.05. -/
noncomputable def csSigmaZ (distance : ℝ) : ℝ :=
  0.05 * distance * distanceFactor distance

/-- The per-cell increment computed by the loop body of cs_module.c
update_pollution (lines 136-173), as a function of the receptor offset
(dx, dy) and the scalar arguments; 0 encodes `continue`. -/
noncomputable def csConcentration
    (dx dy emission_rate plume_height wind_speed wind_direction : ℝ) : ℝ :=
  if dx * dx + dy * dy < 1 then 0
  else if 300 < Real.sqrt (dx * dx + dy * dy) then 0
  else
    let distance := Real.sqrt (dx * dx + dy * dy)
    let lateral := Real.exp (-0.5 * (angleDiff dy dx wind_direction / csSigmaY distance) ^ 2)
    let vertical := Real.exp (-0.5 * (plume_height / csSigmaZ distance) ^ 2) * 2
    emission_rate / (2 * Real.pi * wind_speed) * lateral * vertical /
      (csSigmaY distance * csSigmaZ distance)

/-- The windowed double loop of cs_module.c update_pollution: each cell of
the window gets its increment added in place; cells outside are untouched. -/
noncomputable def csWindowUpdate
    (w : Window) (x y emission_rate plume_height wind_speed wind_direction : ℝ)
    (g : Geometry) (grid : Grid) : Grid :=
  fun i j =>
    if inWindow w i j then
      grid i j + csConcentration (receptorX g j - x) (receptorY g i - y)
        emission_rate plume_height wind_speed wind_direction
    else grid i j

/-- cs_module.c update_pollution, including its index-range validation
(lines 114-117): on out-of-range window bounds it raises IndexError
before touching the grid; otherwise it runs the windowed loop and
returns None. The Bool is true iff the call returned without error. -/
noncomputable def cs_update_pollution
    (dims0 dims1 : ℕ) (w : Window)
    (x y emission_rate plume_height wind_speed wind_direction : ℝ)
    (g : Geometry) (grid : Grid) : Grid × Bool :=
  if w.i_min < 0 ∨ (dims0 : ℤ) < w.i_max ∨ w.j_min < 0 ∨ (dims1 : ℤ) < w.j_max
  then (grid, false)
  else (csWindowUpdate w x y emission_rate plume_height wind_speed
          wind_direction g grid, true)

/-- The per-cell increment computed by the loop body of spam_module.c
update_pollution (lines 56-80): fixed coefficients a = 0.10, b = 0.05, a
near-field cutoff at distance 1, no far-field cutoff, and a vertical term
written as a sum of two equal exponentials. -/
noncomputable def spamConcentration
    (dx dy emission_rate plume_height wind_speed wind_direction : ℝ) : ℝ :=
  if Real.sqrt (dx * dx + dy * dy) < 1 then 0
  else
    let distance := Real.sqrt (dx * dx + dy * dy)
    let sigma_y := 0.1 * distance * distanceFactor distance
    let sigma_z := 0.05 * distance * distanceFactor distance
    emission_rate / (2 * Real.pi * wind_speed * sigma_y * sigma_z) *
      Real.exp (-0.5 * (angleDiff dy dx wind_direction / sigma_y) ^ 2) *
      (Real.exp (-0.5 * (plume_height / sigma_z) ^ 2) +
       Real.exp (-0.5 * (plume_height / sigma_z) ^ 2))

/-- spam_module.c update_pollution: the windowed double loop (the function
performs no window validation of its own). -/
noncomputable def spam_update_pollution
    (w : Window) (x y emission_rate plume_height wind_speed wind_direction : ℝ)
    (g : Geometry) (grid : Grid) : Grid :=
  fun i j =>
    if inWindow w i j then
      grid i j + spamConcentration (receptorX g j - x) (receptorY g i - y)
        emission_rate plume_height wind_speed wind_direction
    else grid i j

/-- Truncation toward zero, the behavior of the C cast (int) on a double. -/
noncomputable def cTrunc (r : ℝ) : ℤ :=
  if 0 ≤ r then ⌊r⌋ else ⌈r⌉

/-- The window bounds computed per vehicle by update_pollution_multiple
(cs_module.c lines 255-258): fmax/fmin clamps followed by the (int) cast. -/
noncomputable def batchWindow
    (g : Geometry) (dims0 dims1 : ℕ) (x y : ℝ) : Window :=
  { i_min := cTrunc (max 0 ((y - g.y_min - 100) / (g.y_max - g.y_min) *
      (g.grid_resolution : ℝ)))
    i_max := cTrunc (min (dims0 : ℝ) ((y - g.y_min + 100) / (g.y_max - g.y_min) *
      (g.grid_resolution : ℝ)))
    j_min := cTrunc (max 0 ((x - g.x_min - 100) / (g.x_max - g.x_min) *
      (g.grid_resolution : ℝ)))
    j_max := cTrunc (min (dims1 : ℝ) ((x - g.x_min + 100) / (g.x_max - g.x_min) *
      (g.grid_resolution : ℝ))) }

/-- The per-cell increment of the inner loop of update_pollution_multiple
(cs_module.c lines 266-294): same shape as csConcentration but with the
dispersion coefficients taken from calculate_dispersion_coefficients at the
caller's stability class. -/
noncomputable def batchConcentration
    (stability_class : String)
    (dx dy emission_rate plume_height wind_speed wind_direction : ℝ) : ℝ :=
  if dx * dx + dy * dy < 1 then 0
  else if 300 < Real.sqrt (dx * dx + dy * dy) then 0
  else
    let distance := Real.sqrt (dx * dx + dy * dy)
    let sigma_y := (calculate_dispersion_coefficients stability_class distance).1
    let sigma_z := (calculate_dispersion_coefficients stability_class distance).2
    let lateral := Real.exp (-0.5 * (angleDiff dy dx wind_direction / sigma_y) ^ 2)
    let vertical := Real.exp (-0.5 * (plume_height / sigma_z) ^ 2) * 2
    emission_rate / (2 * Real.pi * wind_speed) * lateral * vertical /
      (sigma_y * sigma_z)

/-- A well-formed vehicle tuple (x, y, speed). -/
structure Vehicle where
  x : ℝ
  y : ℝ
  speed : ℝ

/-- The scalar arguments of update_pollution_multiple. -/
structure BatchArgs where
  wind_speed : ℝ
  wind_direction : ℝ
  emission_factor : ℝ
  stability_class : String
  g : Geometry

/-- The whole-buffer decay pass of update_pollution_multiple
(cs_module.c lines 221-226): data[i] *= 0.99 on every cell. -/
noncomputable def decayGrid (grid : Grid) : Grid :=
  fun i j => grid i j * 0.99

/-- The per-vehicle body of update_pollution_multiple (cs_module.c lines
246-295): derive emission rate and plume height from the speed, compute
the clamped window, and add the increment to every window cell. -/
noncomputable def applySource
    (args : BatchArgs) (dims0 dims1 : ℕ) (v : Vehicle) (grid : Grid) : Grid :=
  let emission_rate := calculate_emission_rate v.speed args.emission_factor
  let plume_height := calculate_plume_rise v.speed
  let w := batchWindow args.g dims0 dims1 v.x v.y
  fun i j =>
    if inWindow w i j then
      grid i j + batchConcentration args.stability_class
        (receptorX args.g j - v.x) (receptorY args.g i - v.y)
        emission_rate plume_height args.wind_speed args.wind_direction
    else grid i j

/-- The vehicle loop of update_pollution_multiple (cs_module.c lines
239-296): entries are processed in order; a malformed entry raises
ValueError and returns at once, leaving the grid as it is at that point.
The Bool is true iff the loop completed without error. -/
noncomputable def processVehicles
    (args : BatchArgs) (dims0 dims1 : ℕ) :
    List (Option Vehicle) → Grid → Grid × Bool
  | [], grid => (grid, true)
  | none :: _, grid => (grid, false)
  | some v :: rest, grid =>
      processVehicles args dims0 dims1 rest (applySource args dims0 dims1 v grid)

/-- update_pollution_multiple of cs_module.c: after the (elided) grid and
list type checks, the decay pass runs over the whole grid, and only then
is each vehicle entry validated and applied. -/
noncomputable def update_pollution_multiple
    (args : BatchArgs) (dims0 dims1 : ℕ)
    (vehicle_list : List (Option Vehicle)) (grid : Grid) : Grid × Bool :=
  processVehicles args dims0 dims1 vehicle_list (decayGrid grid)

/- Helper lemmas shared by several claims. -/

/-- The distance factor is positive whenever the distance is nonnegative. -/
lemma distanceFactor_pos {d : ℝ} (hd : 0 ≤ d) : 0 < distanceFactor d := by
  unfold distanceFactor
  exact Real.rpow_pos_of_pos (by nlinarith) _

/-- csSigmaY is positive at positive distance. -/
lemma csSigmaY_pos {d : ℝ} (hd : 0 < d) : 0 < csSigmaY d := by
  unfold csSigmaY
  have := distanceFactor_pos hd.le
  positivity

/-- csSigmaZ is positive at positive distance. -/
lemma csSigmaZ_pos {d : ℝ} (hd : 0 < d) : 0 < csSigmaZ d := by
  unfold csSigmaZ
  have := distanceFactor_pos hd.le
  positivity

/-- A squared distance at least 1 puts the root at least at 1. -/
lemma one_le_sqrt_of {s : ℝ} (h : 1 ≤ s) : 1 ≤ Real.sqrt s := by
  have := Real.sqrt_le_sqrt h
  rwa [Real.sqrt_one] at this

/-- A squared distance at most 90000 puts the root at most at 300. -/
lemma sqrt_le_300_of {s : ℝ} (h : s ≤ 90000) : Real.sqrt s ≤ 300 := by
  have h1 := Real.sqrt_le_sqrt h
  have h2 : Real.sqrt 90000 = 300 := by
    rw [show (90000 : ℝ) = 300 ^ 2 by norm_num,
      Real.sqrt_sq (by norm_num : (0 : ℝ) ≤ 300)]
  linarith

/-- The strcmp cascade selects (0.08, 0.06) for the class string "D". -/
lemma stabilityAB_D : stabilityAB ("D") = (0.08, 0.06) := by
  norm_num [stabilityAB, show ("D" : String) ≠ "A" from by decide,
    show ("D" : String) ≠ "B" from by decide,
    show ("D" : String) ≠ "C" from by decide]

/-- The strcmp cascade selects (0.22, 0.20) for the class string "A". -/
lemma stabilityAB_A : stabilityAB ("A") = (0.22, 0.20) := by
  norm_num [stabilityAB]

/-- Any class string outside {A, ..., F} reaches the fallback branch
(0.10, 0.05). -/
lemma stabilityAB_default (s : String) (h1 : s ≠ "A") (h2 : s ≠ "B")
    (h3 : s ≠ "C") (h4 : s ≠ "D") (h5 : s ≠ "E") (h6 : s ≠ "F") :
    stabilityAB s = (0.10, 0.05) := by
  norm_num [stabilityAB, h1, h2, h3, h4, h5, h6]

/- Claim C1 -/

/-- Claim C1, counterexample: the claim asserts that class "D" uses the
linear coefficient a = 0.10, i.e. that sigma_y("D", d) = 0.10 * d *
(1 + 1e-4 d)^(-0.5); at d = 100 this is false, because the "D" branch of
calculate_dispersion_coefficients sets a = 0.08 (the 0.10/0.05 pair is
the unrecognized-class fallback branch, not the "D" branch). -/
theorem C1_counterexample :
    (calculate_dispersion_coefficients ("D") 100).1
      ≠ 0.1 * 100 * distanceFactor 100 := by
  have hf : 0 < distanceFactor 100 := distanceFactor_pos (by norm_num)
  simp only [calculate_dispersion_coefficients, stabilityAB_D]
  intro h
  push_cast at h
  nlinarith [hf]

/-- Claim C1, amended: for every distance d, class "D" uses the linear
coefficients a = 0.08 and b = 0.06, while every class string outside
{A, B, C, D, E, F} falls back silently to the pair a = 0.10, b = 0.05
(the same pair for all unrecognized strings, but not the pair of class
"D"). -/
theorem C1_amended (s : String) (d : ℝ)
    (hs : s ∉ (["A", "B", "C", "D", "E", "F"] : List String)) :
    calculate_dispersion_coefficients ("D") d
      = (0.08 * d * distanceFactor d, 0.06 * d * distanceFactor d) ∧
    calculate_dispersion_coefficients s d
      = (0.1 * d * distanceFactor d, 0.05 * d * distanceFactor d) := by
  simp only [List.mem_cons, List.not_mem_nil, or_false, not_or] at hs
  obtain ⟨h1, h2, h3, h4, h5, h6⟩ := hs
  constructor
  · simp only [calculate_dispersion_coefficients, stabilityAB_D]
    norm_num
  · simp only [calculate_dispersion_coefficients,
      stabilityAB_default s h1 h2 h3 h4 h5 h6]
    norm_num

/-- Claim C1, witness: the amended statement evaluated at the concrete
class "X" and distance 4. -/
theorem C1_witness :
    (("X" : String) ∉ (["A", "B", "C", "D", "E", "F"] : List String)) ∧
    (calculate_dispersion_coefficients ("D") 4
       = (0.08 * 4 * distanceFactor 4, 0.06 * 4 * distanceFactor 4) ∧
     calculate_dispersion_coefficients ("X") 4
       = (0.1 * 4 * distanceFactor 4, 0.05 * 4 * distanceFactor 4)) :=
  ⟨by decide, C1_amended ("X") 4 (by decide)⟩

/- Claim C5 -/

/-- Claim C5, counterexample: the claim asserts that the single-source
updater computes its per-cell dispersion coefficients from the stability
class table at the caller's class; for class "A" at distance 100 this is
false: the loop body of cs_module.c update_pollution hardcodes sigma_y =
0.1 * distance * (1 + 1e-4 distance)^(-0.5) (it has no stability-class
parameter at all), while the class table gives a = 0.22 for "A". -/
theorem C5_counterexample :
    csSigmaY 100 ≠ (calculate_dispersion_coefficients ("A") 100).1 := by
  have hf : 0 < distanceFactor 100 := distanceFactor_pos (by norm_num)
  simp only [csSigmaY, calculate_dispersion_coefficients, stabilityAB_A]
  intro h
  push_cast at h
  nlinarith [hf]

/-- Claim C5, amended: the single-source updaters take no stability-class
argument; at every distance their inlined coefficients equal the class
table's fallback row (a = 0.10, b = 0.05), i.e. they agree with
calculate_dispersion_coefficients only for class strings outside
{A, B, C, D, E, F}; only the batch updater dispatches on the caller's
class. -/
theorem C5_amended (s : String) (d : ℝ)
    (hs : s ∉ (["A", "B", "C", "D", "E", "F"] : List String)) :
    (csSigmaY d, csSigmaZ d) = calculate_dispersion_coefficients s d := by
  simp only [List.mem_cons, List.not_mem_nil, or_false, not_or] at hs
  obtain ⟨h1, h2, h3, h4, h5, h6⟩ := hs
  simp only [csSigmaY, csSigmaZ, calculate_dispersion_coefficients,
    stabilityAB_default s h1 h2 h3 h4 h5 h6]
  norm_num

/-- Claim C5, witness: the amended statement evaluated at the concrete
class "Q" and distance 7. -/
theorem C5_witness :
    (("Q" : String) ∉ (["A", "B", "C", "D", "E", "F"] : List String)) ∧
    (csSigmaY 7, csSigmaZ 7) = calculate_dispersion_coefficients ("Q") 7 :=
  ⟨by decide, C5_amended ("Q") 7 (by decide)⟩

/-- In the distance band [1, 300] the cs_module and spam_module per-cell
increments are equal: 2 * exp coincides with exp + exp and both use the
coefficients 0.1 and 0.05. -/
lemma csConcentration_eq_spam (dx dy er ph ws wd : ℝ)
    (h1 : 1 ≤ dx * dx + dy * dy) (h2 : dx * dx + dy * dy ≤ 90000) :
    csConcentration dx dy er ph ws wd = spamConcentration dx dy er ph ws wd := by
  have hs1 : 1 ≤ Real.sqrt (dx * dx + dy * dy) := one_le_sqrt_of h1
  have hs2 : Real.sqrt (dx * dx + dy * dy) ≤ 300 := sqrt_le_300_of h2
  simp only [csConcentration, spamConcentration, csSigmaY, csSigmaZ,
    if_neg (not_lt.mpr h1), if_neg (not_lt.mpr hs2), if_neg (not_lt.mpr hs1)]
  simp only [div_eq_mul_inv, mul_inv]
  ring

/-- Outside the distance band, the cs_module per-cell increment is zero. -/
lemma csConcentration_cutoff (dx dy er ph ws wd : ℝ)
    (h : dx * dx + dy * dy < 1 ∨ 300 < Real.sqrt (dx * dx + dy * dy)) :
    csConcentration dx dy er ph ws wd = 0 := by
  unfold csConcentration
  rcases h with h | h
  · rw [if_pos h]
  · by_cases h' : dx * dx + dy * dy < 1
    · rw [if_pos h']
    · rw [if_neg h', if_pos h]

/-- Below distance 1 the spam_module per-cell increment is zero. -/
lemma spamConcentration_cutoff (dx dy er ph ws wd : ℝ)
    (h : Real.sqrt (dx * dx + dy * dy) < 1) :
    spamConcentration dx dy er ph ws wd = 0 := by
  unfold spamConcentration
  rw [if_pos h]

/-- At distance at least 1 and with positive emission rate and wind speed,
the spam_module per-cell increment is strictly positive (it has no
far-field cutoff). -/
lemma spamConcentration_pos (dx dy er ph ws wd : ℝ)
    (her : 0 < er) (hws : 0 < ws) (h1 : 1 ≤ dx * dx + dy * dy) :
    0 < spamConcentration dx dy er ph ws wd := by
  have hs1 : 1 ≤ Real.sqrt (dx * dx + dy * dy) := one_le_sqrt_of h1
  have hd : (0 : ℝ) < Real.sqrt (dx * dx + dy * dy) := by linarith
  have hf : 0 < distanceFactor (Real.sqrt (dx * dx + dy * dy)) :=
    distanceFactor_pos hd.le
  simp only [spamConcentration, if_neg (not_lt.mpr hs1)]
  have hpi := Real.pi_pos
  have hsy : (0 : ℝ) < 0.1 * Real.sqrt (dx * dx + dy * dy) *
      distanceFactor (Real.sqrt (dx * dx + dy * dy)) := by positivity
  have hsz : (0 : ℝ) < 0.05 * Real.sqrt (dx * dx + dy * dy) *
      distanceFactor (Real.sqrt (dx * dx + dy * dy)) := by positivity
  have hden : (0 : ℝ) < 2 * Real.pi * ws *
      (0.1 * Real.sqrt (dx * dx + dy * dy) *
        distanceFactor (Real.sqrt (dx * dx + dy * dy))) *
      (0.05 * Real.sqrt (dx * dx + dy * dy) *
        distanceFactor (Real.sqrt (dx * dx + dy * dy))) := by positivity
  exact mul_pos (mul_pos (div_pos her hden) (Real.exp_pos _))
    (by positivity)

/-- In the distance band, with positive emission rate and wind speed, the
cs_module per-cell increment is strictly positive. -/
lemma csConcentration_pos (dx dy er ph ws wd : ℝ)
    (her : 0 < er) (hws : 0 < ws)
    (h1 : 1 ≤ dx * dx + dy * dy) (h2 : dx * dx + dy * dy ≤ 90000) :
    0 < csConcentration dx dy er ph ws wd := by
  rw [csConcentration_eq_spam dx dy er ph ws wd h1 h2]
  exact spamConcentration_pos dx dy er ph ws wd her hws h1

/- Claim C2 -/

/-- Claim C2, counterexample: the claim asserts that every single-source
updater leaves cells at distance above 300 unchanged; spam_module.c
update_pollution has no far-field cutoff, so a cell at distance 400 from
the source receives a strictly positive increment and changes. -/
theorem C2_counterexample :
    300 < Real.sqrt
      ((receptorX ⟨0, 8000, 0, 8000, 10⟩ 0 - 0) *
         (receptorX ⟨0, 8000, 0, 8000, 10⟩ 0 - 0) +
       (receptorY ⟨0, 8000, 0, 8000, 10⟩ 0 - 400) *
         (receptorY ⟨0, 8000, 0, 8000, 10⟩ 0 - 400)) ∧
    spam_update_pollution ⟨0, 1, 0, 1⟩ 0 400 1 0 1 0 ⟨0, 8000, 0, 8000, 10⟩
        (fun _ _ => 0) 0 0
      ≠ (fun _ _ => (0 : ℝ)) 0 0 := by
  have hrx : receptorX ⟨0, 8000, 0, 8000, 10⟩ 0 = 400 := by
    norm_num [receptorX, cellWidth]
  have hry : receptorY ⟨0, 8000, 0, 8000, 10⟩ 0 = 400 := by
    norm_num [receptorY, cellHeight]
  have hsq : Real.sqrt 160000 = 400 := by
    rw [show (160000 : ℝ) = 400 ^ 2 by norm_num,
      Real.sqrt_sq (by norm_num : (0 : ℝ) ≤ 400)]
  constructor
  · rw [hrx, hry]
    norm_num [hsq]
  · have hin : inWindow ⟨0, 1, 0, 1⟩ 0 0 := by decide
    have hpos : 0 < spamConcentration (400 - 0) (400 - 400) 1 0 1 0 :=
      spamConcentration_pos _ _ _ _ _ _ (by norm_num) (by norm_num)
        (by norm_num)
    have hgt : (fun _ _ => (0 : ℝ)) 0 0 <
        spam_update_pollution ⟨0, 1, 0, 1⟩ 0 400 1 0 1 0
          ⟨0, 8000, 0, 8000, 10⟩ (fun _ _ => 0) 0 0 := by
      simp only [spam_update_pollution, if_pos hin, hrx, hry]
      simpa using hpos
    exact hgt.ne'

/-- Claim C2, amended: cs_module.c update_pollution leaves unchanged every
cell whose center lies at distance below 1 or above 300 from the source
(both cutoffs, even when the window is larger); spam_module.c
update_pollution applies only the near-field cutoff, leaving unchanged
every cell at distance below 1 (it has no far-field cutoff). -/
theorem C2_amended (w : Window) (g : Geometry)
    (x y er ph ws wd : ℝ) (grid : Grid) (i j : ℤ) :
    (((receptorX g j - x) * (receptorX g j - x) +
        (receptorY g i - y) * (receptorY g i - y) < 1 ∨
      300 < Real.sqrt ((receptorX g j - x) * (receptorX g j - x) +
        (receptorY g i - y) * (receptorY g i - y))) →
      csWindowUpdate w x y er ph ws wd g grid i j = grid i j) ∧
    (Real.sqrt ((receptorX g j - x) * (receptorX g j - x) +
        (receptorY g i - y) * (receptorY g i - y)) < 1 →
      spam_update_pollution w x y er ph ws wd g grid i j = grid i j) := by
  constructor
  · intro h
    unfold csWindowUpdate
    by_cases hw : inWindow w i j
    · rw [if_pos hw, csConcentration_cutoff _ _ _ _ _ _ h, add_zero]
    · rw [if_neg hw]
  · intro h
    unfold spam_update_pollution
    by_cases hw : inWindow w i j
    · rw [if_pos hw, spamConcentration_cutoff _ _ _ _ _ _ h, add_zero]
    · rw [if_neg hw]

/-- Claim C2, witness: the amended statement evaluated at a concrete cell
whose center coincides with the source (distance 0), for both updaters. -/
theorem C2_witness :
    ((receptorX ⟨0, 10, 0, 10, 1⟩ 0 - 5) * (receptorX ⟨0, 10, 0, 10, 1⟩ 0 - 5) +
       (receptorY ⟨0, 10, 0, 10, 1⟩ 0 - 5) * (receptorY ⟨0, 10, 0, 10, 1⟩ 0 - 5)
       < 1) ∧
    (Real.sqrt ((receptorX ⟨0, 10, 0, 10, 1⟩ 0 - 5) *
        (receptorX ⟨0, 10, 0, 10, 1⟩ 0 - 5) +
       (receptorY ⟨0, 10, 0, 10, 1⟩ 0 - 5) *
        (receptorY ⟨0, 10, 0, 10, 1⟩ 0 - 5)) < 1) ∧
    csWindowUpdate ⟨0, 1, 0, 1⟩ 5 5 3 2 2 0 ⟨0, 10, 0, 10, 1⟩
        (fun _ _ => 7) 0 0 = (fun _ _ => (7 : ℝ)) 0 0 ∧
    spam_update_pollution ⟨0, 1, 0, 1⟩ 5 5 3 2 2 0 ⟨0, 10, 0, 10, 1⟩
        (fun _ _ => 7) 0 0 = (fun _ _ => (7 : ℝ)) 0 0 := by
  have hsq : (receptorX ⟨0, 10, 0, 10, 1⟩ 0 - 5) *
      (receptorX ⟨0, 10, 0, 10, 1⟩ 0 - 5) +
      (receptorY ⟨0, 10, 0, 10, 1⟩ 0 - 5) *
      (receptorY ⟨0, 10, 0, 10, 1⟩ 0 - 5) = 0 := by
    norm_num [receptorX, receptorY, cellWidth, cellHeight]
  have h1 : (receptorX ⟨0, 10, 0, 10, 1⟩ 0 - 5) *
      (receptorX ⟨0, 10, 0, 10, 1⟩ 0 - 5) +
      (receptorY ⟨0, 10, 0, 10, 1⟩ 0 - 5) *
      (receptorY ⟨0, 10, 0, 10, 1⟩ 0 - 5) < 1 := by rw [hsq]; norm_num
  have h2 : Real.sqrt ((receptorX ⟨0, 10, 0, 10, 1⟩ 0 - 5) *
      (receptorX ⟨0, 10, 0, 10, 1⟩ 0 - 5) +
      (receptorY ⟨0, 10, 0, 10, 1⟩ 0 - 5) *
      (receptorY ⟨0, 10, 0, 10, 1⟩ 0 - 5)) < 1 := by
    rw [hsq, Real.sqrt_zero]; norm_num
  exact ⟨h1, h2,
    (C2_amended ⟨0, 1, 0, 1⟩ ⟨0, 10, 0, 10, 1⟩ 5 5 3 2 2 0 (fun _ _ => 7) 0 0).1
      (Or.inl h1),
    (C2_amended ⟨0, 1, 0, 1⟩ ⟨0, 10, 0, 10, 1⟩ 5 5 3 2 2 0 (fun _ _ => 7) 0 0).2
      h2⟩

/- Claim C6 -/

/-- Claim C6: for identical scalar inputs, the increment cs_module.c
update_pollution adds to a cell at distance in [1, 300] (squared distance
in [1, 90000]) equals the increment spam_module.c update_pollution adds
to that cell: the vertical terms 2*exp(...) and exp(...) + exp(...)
coincide and both use the coefficients a = 0.1, b = 0.05. -/
theorem C6_cs_spam_agree (w : Window) (g : Geometry)
    (x y er ph ws wd : ℝ) (grid : Grid) (i j : ℤ)
    (h1 : 1 ≤ (receptorX g j - x) * (receptorX g j - x) +
      (receptorY g i - y) * (receptorY g i - y))
    (h2 : (receptorX g j - x) * (receptorX g j - x) +
      (receptorY g i - y) * (receptorY g i - y) ≤ 90000) :
    csWindowUpdate w x y er ph ws wd g grid i j
      = spam_update_pollution w x y er ph ws wd g grid i j := by
  unfold csWindowUpdate spam_update_pollution
  by_cases hw : inWindow w i j
  · rw [if_pos hw, if_pos hw, csConcentration_eq_spam _ _ _ _ _ _ h1 h2]
  · rw [if_neg hw, if_neg hw]

/-- Claim C6, witness: the equality evaluated at a concrete cell at
distance 5 from the source. -/
theorem C6_witness :
    (1 ≤ (receptorX ⟨0, 10, 0, 10, 1⟩ 0 - 0) * (receptorX ⟨0, 10, 0, 10, 1⟩ 0 - 0) +
      (receptorY ⟨0, 10, 0, 10, 1⟩ 0 - 5) * (receptorY ⟨0, 10, 0, 10, 1⟩ 0 - 5)) ∧
    ((receptorX ⟨0, 10, 0, 10, 1⟩ 0 - 0) * (receptorX ⟨0, 10, 0, 10, 1⟩ 0 - 0) +
      (receptorY ⟨0, 10, 0, 10, 1⟩ 0 - 5) * (receptorY ⟨0, 10, 0, 10, 1⟩ 0 - 5)
      ≤ 90000) ∧
    csWindowUpdate ⟨0, 1, 0, 1⟩ 0 5 5 2 2 0 ⟨0, 10, 0, 10, 1⟩
        (fun _ _ => 0) 0 0
      = spam_update_pollution ⟨0, 1, 0, 1⟩ 0 5 5 2 2 0 ⟨0, 10, 0, 10, 1⟩
        (fun _ _ => 0) 0 0 := by
  have h1 : (1 : ℝ) ≤ (receptorX ⟨0, 10, 0, 10, 1⟩ 0 - 0) *
      (receptorX ⟨0, 10, 0, 10, 1⟩ 0 - 0) +
      (receptorY ⟨0, 10, 0, 10, 1⟩ 0 - 5) *
      (receptorY ⟨0, 10, 0, 10, 1⟩ 0 - 5) := by
    norm_num [receptorX, receptorY, cellWidth, cellHeight]
  have h2 : (receptorX ⟨0, 10, 0, 10, 1⟩ 0 - 0) *
      (receptorX ⟨0, 10, 0, 10, 1⟩ 0 - 0) +
      (receptorY ⟨0, 10, 0, 10, 1⟩ 0 - 5) *
      (receptorY ⟨0, 10, 0, 10, 1⟩ 0 - 5) ≤ 90000 := by
    norm_num [receptorX, receptorY, cellWidth, cellHeight]
  exact ⟨h1, h2, C6_cs_spam_agree ⟨0, 1, 0, 1⟩ ⟨0, 10, 0, 10, 1⟩ 0 5 5 2 2 0
    (fun _ _ => 0) 0 0 h1 h2⟩

/- Claim C10 -/

/-- Claim C10: with positive emission rate and wind speed, every window
cell whose center lies at distance in [1, 300] (squared distance in
[1, 90000]) receives a strictly positive increment from the single-source
updater of cs_module.c; no directional gating ever makes it zero. -/
theorem C10_positive_increment (w : Window) (g : Geometry)
    (x y er ph ws wd : ℝ) (grid : Grid) (i j : ℤ)
    (hw : inWindow w i j) (her : 0 < er) (hws : 0 < ws)
    (h1 : 1 ≤ (receptorX g j - x) * (receptorX g j - x) +
      (receptorY g i - y) * (receptorY g i - y))
    (h2 : (receptorX g j - x) * (receptorX g j - x) +
      (receptorY g i - y) * (receptorY g i - y) ≤ 90000) :
    grid i j < csWindowUpdate w x y er ph ws wd g grid i j := by
  unfold csWindowUpdate
  rw [if_pos hw]
  have := csConcentration_pos (receptorX g j - x) (receptorY g i - y)
    er ph ws wd her hws h1 h2
  linarith

/-- Claim C10, witness: the strict increase evaluated at a concrete cell
directly upwind of the source at distance 5. -/
theorem C10_witness :
    inWindow ⟨0, 1, 0, 1⟩ 0 0 ∧ (0 : ℝ) < 5 ∧ (0 : ℝ) < 2 ∧
    (1 ≤ (receptorX ⟨0, 10, 0, 10, 1⟩ 0 - 0) * (receptorX ⟨0, 10, 0, 10, 1⟩ 0 - 0) +
      (receptorY ⟨0, 10, 0, 10, 1⟩ 0 - 5) * (receptorY ⟨0, 10, 0, 10, 1⟩ 0 - 5)) ∧
    ((receptorX ⟨0, 10, 0, 10, 1⟩ 0 - 0) * (receptorX ⟨0, 10, 0, 10, 1⟩ 0 - 0) +
      (receptorY ⟨0, 10, 0, 10, 1⟩ 0 - 5) * (receptorY ⟨0, 10, 0, 10, 1⟩ 0 - 5)
      ≤ 90000) ∧
    (fun _ _ => (0 : ℝ)) 0 0 < csWindowUpdate ⟨0, 1, 0, 1⟩ 0 5 5 2 2
      Real.pi ⟨0, 10, 0, 10, 1⟩ (fun _ _ => 0) 0 0 := by
  have hw : inWindow ⟨0, 1, 0, 1⟩ 0 0 := by decide
  have h1 : (1 : ℝ) ≤ (receptorX ⟨0, 10, 0, 10, 1⟩ 0 - 0) *
      (receptorX ⟨0, 10, 0, 10, 1⟩ 0 - 0) +
      (receptorY ⟨0, 10, 0, 10, 1⟩ 0 - 5) *
      (receptorY ⟨0, 10, 0, 10, 1⟩ 0 - 5) := by
    norm_num [receptorX, receptorY, cellWidth, cellHeight]
  have h2 : (receptorX ⟨0, 10, 0, 10, 1⟩ 0 - 0) *
      (receptorX ⟨0, 10, 0, 10, 1⟩ 0 - 0) +
      (receptorY ⟨0, 10, 0, 10, 1⟩ 0 - 5) *
      (receptorY ⟨0, 10, 0, 10, 1⟩ 0 - 5) ≤ 90000 := by
    norm_num [receptorX, receptorY, cellWidth, cellHeight]
  exact ⟨hw, by norm_num, by norm_num, h1, h2,
    C10_positive_increment ⟨0, 1, 0, 1⟩ ⟨0, 10, 0, 10, 1⟩ 0 5 5 2 2 Real.pi
      (fun _ _ => 0) 0 0 hw (by norm_num) (by norm_num) h1 h2⟩

/-- C's atan2 always lands in (-pi, pi]. -/
lemma atan2_bounds (y x : ℝ) : -Real.pi < atan2 y x ∧ atan2 y x ≤ Real.pi := by
  have hpi := Real.pi_pos
  have ha1 := Real.arctan_lt_pi_div_two (y / x)
  have ha2 := Real.neg_pi_div_two_lt_arctan (y / x)
  unfold atan2
  split_ifs with h1 h2 h3 h4 h5
  · constructor <;> linarith
  · have hyx : y / x ≤ 0 := div_nonpos_iff.mpr (Or.inl ⟨h3, h2.le⟩)
    have hle : Real.arctan (y / x) ≤ 0 := by
      have := Real.arctan_strictMono.monotone hyx
      rwa [Real.arctan_zero] at this
    constructor <;> linarith
  · have hyx : 0 < y / x := div_pos_iff.mpr (Or.inr ⟨not_le.mp h3, h2⟩)
    have hgt : 0 < Real.arctan (y / x) := by
      have := Real.arctan_strictMono hyx
      rwa [Real.arctan_zero] at this
    constructor <;> linarith
  · constructor <;> linarith
  · constructor <;> linarith
  · constructor <;> linarith

/- Claim C8 -/

/-- Claim C8, counterexample: the claim asserts the adjusted angular
difference lies in [0, pi] for every real wind_direction; neither module
reduces wind_direction mod 2*pi, so for wind_direction = 10 and receptor
offset (dx, dy) = (1, 0) the code computes |0 - 10| = 10 > pi and then
2*pi - 10 < 0, outside [0, pi]. -/
theorem C8_counterexample :
    ¬ (0 ≤ angleDiff 0 1 10 ∧ angleDiff 0 1 10 ≤ Real.pi) := by
  have hpi1 : Real.pi < 3.15 := Real.pi_lt_d2
  have hpi0 := Real.pi_pos
  have hat : atan2 0 1 = 0 := by
    unfold atan2
    rw [if_pos one_pos]
    norm_num [Real.arctan_zero]
  have habs : |(0 : ℝ) - 10| = 10 := by
    rw [abs_of_nonpos (by norm_num)]; norm_num
  simp only [angleDiff, hat, habs]
  rw [if_pos (by linarith : (10 : ℝ) > Real.pi)]
  rintro ⟨hge, -⟩
  linarith

/-- Claim C8, amended: the code performs no mod-2*pi reduction of
wind_direction; for wind_direction already in [-pi, pi] (and every
receptor offset) the adjusted angular difference does lie in [0, pi]. -/
theorem C8_amended (dx dy wd : ℝ) (h1 : -Real.pi ≤ wd) (h2 : wd ≤ Real.pi) :
    0 ≤ angleDiff dy dx wd ∧ angleDiff dy dx wd ≤ Real.pi := by
  obtain ⟨hl, hu⟩ := atan2_bounds dy dx
  have habs : |atan2 dy dx - wd| ≤ 2 * Real.pi := by
    rw [abs_le]
    constructor <;> linarith
  have h0 : 0 ≤ |atan2 dy dx - wd| := abs_nonneg _
  simp only [angleDiff]
  split_ifs with h
  · constructor <;> linarith
  · exact ⟨h0, not_lt.mp h⟩

/-- Claim C8, witness: the amended statement evaluated at wind direction 0
and receptor offset (1, 0). -/
theorem C8_witness :
    (-Real.pi ≤ 0) ∧ ((0 : ℝ) ≤ Real.pi) ∧
    (0 ≤ angleDiff 0 1 0 ∧ angleDiff 0 1 0 ≤ Real.pi) :=
  ⟨neg_nonpos.mpr Real.pi_pos.le, Real.pi_pos.le,
    C8_amended 1 0 0 (neg_nonpos.mpr Real.pi_pos.le) Real.pi_pos.le⟩

/-- A C int cast of a nonnegative double is its floor, hence nonnegative. -/
lemma cTrunc_nonneg {r : ℝ} (h : 0 ≤ r) : 0 ≤ cTrunc r := by
  unfold cTrunc
  rw [if_pos h]
  exact Int.floor_nonneg.mpr h

/-- A C int cast never exceeds an integer upper bound of its argument. -/
lemma cTrunc_le {r : ℝ} {n : ℤ} (h : r ≤ (n : ℝ)) : cTrunc r ≤ n := by
  unfold cTrunc
  split_ifs with h0
  · have := Int.floor_le_floor h
    rwa [Int.floor_intCast] at this
  · exact Int.ceil_le.mpr h

/- Claim C9 -/

/-- Claim C9: for every source position (even far outside the grid) and
every geometry with x_min < x_max, y_min < y_max and positive resolution,
the clamped window bounds of the batch updater satisfy 0 <= i_min,
i_max <= row count, 0 <= j_min, j_max <= column count, so every cell the
per-source loop visits is in range; no error is ever needed. -/
theorem C9_window_in_range (g : Geometry) (dims0 dims1 : ℕ) (x y : ℝ)
    (hx : g.x_min < g.x_max) (hy : g.y_min < g.y_max)
    (hres : 0 < g.grid_resolution) :
    0 ≤ (batchWindow g dims0 dims1 x y).i_min ∧
    (batchWindow g dims0 dims1 x y).i_max ≤ (dims0 : ℤ) ∧
    0 ≤ (batchWindow g dims0 dims1 x y).j_min ∧
    (batchWindow g dims0 dims1 x y).j_max ≤ (dims1 : ℤ) ∧
    (∀ i j : ℤ, inWindow (batchWindow g dims0 dims1 x y) i j →
      0 ≤ i ∧ i < (dims0 : ℤ) ∧ 0 ≤ j ∧ j < (dims1 : ℤ)) := by
  have hi0 : 0 ≤ (batchWindow g dims0 dims1 x y).i_min :=
    cTrunc_nonneg (le_max_left _ _)
  have hi1 : (batchWindow g dims0 dims1 x y).i_max ≤ (dims0 : ℤ) :=
    cTrunc_le (by push_cast; exact min_le_left _ _)
  have hj0 : 0 ≤ (batchWindow g dims0 dims1 x y).j_min :=
    cTrunc_nonneg (le_max_left _ _)
  have hj1 : (batchWindow g dims0 dims1 x y).j_max ≤ (dims1 : ℤ) :=
    cTrunc_le (by push_cast; exact min_le_left _ _)
  refine ⟨hi0, hi1, hj0, hj1, fun i j hw => ?_⟩
  obtain ⟨a, b, c, d⟩ := hw
  exact ⟨le_trans hi0 a, lt_of_lt_of_le b hi1, le_trans hj0 c,
    lt_of_lt_of_le d hj1⟩

/-- Claim C9, witness: the window bounds evaluated for a concrete geometry
and a source inside the grid. -/
theorem C9_witness :
    0 ≤ (batchWindow ⟨0, 100, 0, 100, 10⟩ 5 7 50 50).i_min ∧
    (batchWindow ⟨0, 100, 0, 100, 10⟩ 5 7 50 50).i_max ≤ (5 : ℤ) ∧
    0 ≤ (batchWindow ⟨0, 100, 0, 100, 10⟩ 5 7 50 50).j_min ∧
    (batchWindow ⟨0, 100, 0, 100, 10⟩ 5 7 50 50).j_max ≤ (7 : ℤ) := by
  obtain ⟨a, b, c, d, -⟩ := C9_window_in_range ⟨0, 100, 0, 100, 10⟩ 5 7 50 50
    (by norm_num) (by norm_num) (by norm_num)
  refine ⟨a, ?_, c, ?_⟩ <;> exact_mod_cast by assumption

/-- The vehicle loop leaves a cell untouched when every entry is a
well-formed tuple whose clamped window misses the cell, and then reports
success. -/
lemma processVehicles_frame (args : BatchArgs) (dims0 dims1 : ℕ) (i j : ℤ)
    (vs : List (Option Vehicle)) :
    ∀ grid : Grid, (∀ o ∈ vs, o ≠ none) →
    (∀ v : Vehicle, some v ∈ vs →
      ¬ inWindow (batchWindow args.g dims0 dims1 v.x v.y) i j) →
    (processVehicles args dims0 dims1 vs grid).2 = true ∧
    (processVehicles args dims0 dims1 vs grid).1 i j = grid i j := by
  induction vs with
  | nil => intro grid _ _; exact ⟨rfl, rfl⟩
  | cons o rest ih =>
    intro grid hwf hout
    match o with
    | none => exact absurd rfl (hwf none (List.mem_cons_self _ _))
    | some v =>
      simp only [processVehicles]
      have h' := ih (applySource args dims0 dims1 v grid)
        (fun o ho => hwf o (List.mem_cons_of_mem _ ho))
        (fun u hu => hout u (List.mem_cons_of_mem _ hu))
      refine ⟨h'.1, ?_⟩
      rw [h'.2]
      simp only [applySource, if_neg (hout v (List.mem_cons_self _ _))]

/- Claim C7 -/

/-- Claim C7: after a successful batch call every cell outside every
source's clamped window equals exactly 0.99 times its prior value; with
an empty source list this holds for every cell of the grid. -/
theorem C7_decay_frame (args : BatchArgs) (dims0 dims1 : ℕ)
    (vehicle_list : List (Option Vehicle)) (grid : Grid) (i j : ℤ)
    (hwf : ∀ o ∈ vehicle_list, o ≠ none)
    (hout : ∀ v : Vehicle, some v ∈ vehicle_list →
      ¬ inWindow (batchWindow args.g dims0 dims1 v.x v.y) i j) :
    (update_pollution_multiple args dims0 dims1 vehicle_list grid).2 = true ∧
    (update_pollution_multiple args dims0 dims1 vehicle_list grid).1 i j
      = grid i j * 0.99 := by
  unfold update_pollution_multiple
  have h := processVehicles_frame args dims0 dims1 i j vehicle_list
    (decayGrid grid) hwf hout
  exact ⟨h.1, by rw [h.2]; rfl⟩

/-- Claim C7, witness: the batch updater applied to an empty vehicle list
multiplies a concrete cell by exactly 0.99. -/
theorem C7_witness :
    (update_pollution_multiple ⟨1, 0, 1, ("D"), ⟨0, 100, 0, 100, 10⟩⟩ 5 5 []
        (fun _ _ => 2)).2 = true ∧
    (update_pollution_multiple ⟨1, 0, 1, ("D"), ⟨0, 100, 0, 100, 10⟩⟩ 5 5 []
        (fun _ _ => 2)).1 0 0 = (fun _ _ => (2 : ℝ)) 0 0 * 0.99 :=
  C7_decay_frame ⟨1, 0, 1, ("D"), ⟨0, 100, 0, 100, 10⟩⟩ 5 5 [] (fun _ _ => 2)
    0 0 (by simp) (by simp)

/- Claim C3 -/

/-- Claim C3 is contradicted by the code: update_pollution_multiple applies
the whole-grid decay pass before it validates any vehicle entry, so a
batch call whose only entry is malformed fails with ValueError but leaves
every cell multiplied by 0.99 instead of untouched: here the cell held 1
before the failed call and 0.99 after it. -/
theorem C3_decay_applied_on_failure :
    (update_pollution_multiple ⟨1, 0, 1, ("D"), ⟨0, 100, 0, 100, 10⟩⟩ 5 5
        [none] (fun _ _ => 1)).2 = false ∧
    (update_pollution_multiple ⟨1, 0, 1, ("D"), ⟨0, 100, 0, 100, 10⟩⟩ 5 5
        [none] (fun _ _ => 1)).1 0 0 = 0.99 := by
  constructor
  · rfl
  · show decayGrid (fun _ _ => 1) 0 0 = 0.99
    norm_num [decayGrid]

/- Claim C4 -/

/-- Claim C4 is contradicted by the code: neither update_pollution nor
update_pollution_multiple checks wind_speed at all; called with
wind_speed = 0 both run to completion and report success (in C the
division emission_rate / (2*pi*wind_speed) silently produces infinity)
instead of failing without mutation. -/
theorem C4_no_wind_speed_check :
    (cs_update_pollution 1 1 ⟨0, 1, 0, 1⟩ 0 0 5 2 0 0 ⟨0, 10, 0, 10, 1⟩
        (fun _ _ => 0)).2 = true ∧
    (update_pollution_multiple ⟨0, 0, 1, ("D"), ⟨0, 100, 0, 100, 10⟩⟩ 5 5
        [some ⟨0, 0, 5⟩] (fun _ _ => 0)).2 = true := by
  constructor
  · unfold cs_update_pollution
    rw [if_neg (by decide)]
  · show (processVehicles _ 5 5 [some ⟨0, 0, 5⟩] _).2 = true
    simp only [processVehicles]

end ContamSim
